import Mathlib

/-!
Shallow embedding of the `mcp-canvas` TypeScript sources
(`src/canvas.ts`, `src/schemas.ts`, `src/tools/create_assignment.ts`).

The resilient HTTP client `CanvasClient.request` is modelled as a pure
interpreter of its attempt loop: the environment is a function from the
attempt index to what `fetch` produced on that attempt (either a thrown
transport exception, or an HTTP response together with the results of
reading its body).  The interpreter returns the final outcome (a decoded
value or a thrown error) together with the ordered trace of observable
effects (HTTP requests issued, backoff waits in milliseconds).
-/

set_option autoImplicit false

namespace Canvas

/-- A JavaScript exception value as seen by `instanceof Error` checks:
either an `Error` carrying a message, or some non-`Error` thrown value. -/
inductive JsExc where
  | jsError (msg : String)
  | nonError
  deriving DecidableEq, Repr

/-- A value thrown out of the body of the retry loop in
`CanvasClient.request`: either an `Error` constructed by the client itself
(`new Error(...)` at canvas.ts:66 and canvas.ts:98), or an exception
propagated from `fetch` / `response.json()` (of exception type `ε`). -/
inductive Thrown (ε : Type) where
  | error (msg : String)
  | exc (e : ε)
  deriving DecidableEq, Repr

/-- The parts of an HTTP response that `CanvasClient.request` consumes.
`bodyRead = none` models `response.text()` rejecting (the `.catch(() => '')`
at canvas.ts:65 then degrades the body to `""`).  `retryAfter = none` models
an absent `Retry-After` header (canvas.ts:56 then defaults to `1`).
`json` is the result of `response.json()`; an `Except.error` models the
decode throwing (only consulted on a 2xx response). -/
structure HttpResponse (ε τ : Type) where
  status : Nat
  statusText : String
  bodyRead : Option String
  retryAfter : Option Nat
  json : Except ε τ

/-- What one `fetch(url, requestOptions)` call produced: a thrown transport
exception, or a response. -/
inductive FetchResult (ε τ : Type) where
  | exc (e : ε)
  | resp (r : HttpResponse ε τ)

/-- Observable effects of one run of the attempt loop: an HTTP request was
issued, or the loop waited for the given number of milliseconds. -/
inductive Event where
  | requestIssued
  | waited (ms : Nat)
  deriving DecidableEq, Repr

/-- Final outcome of `CanvasClient.request`: the decoded response value, or
the value thrown to the caller. -/
inductive Outcome (ε τ : Type) where
  | ok (v : τ)
  | err (t : Thrown ε)
  deriving DecidableEq, Repr

/-- `response.ok` of the fetch API: status in the inclusive range 200-299. -/
def responseOk (status : Nat) : Bool :=
  200 ≤ status && status ≤ 299

/-- The message of the `Error` built at canvas.ts:66-68:
"Canvas {method} {path} failed: {status} {statusText}" plus
": {errorText}" when `errorText` is truthy (non-empty). -/
def canvasErrorMessage (method path : String) (status : Nat)
    (statusText errorText : String) : String :=
  "Canvas " ++ method ++ " " ++ path ++ " failed: " ++ toString status ++ " " ++ statusText ++
    (if errorText = "" then "" else ": " ++ errorText)

/-- The message of the defensive fallback error at canvas.ts:98. -/
def retriesExhaustedMessage (method path : String) (maxRetries : Nat) : String :=
  "Canvas " ++ method ++ " " ++ path ++ " failed after " ++ toString maxRetries ++ " retries"

/-- The `catch` block at canvas.ts:88-95: any value thrown inside the loop
body lands here; on the last permitted attempt it is rethrown, otherwise the
loop waits `2^attempt` seconds and proceeds with the next attempt
(`next` is the continuation of the loop). -/
def catchClause {ε τ : Type} (attempt maxRetries : Nat) (thrown : Thrown ε)
    (next : Outcome ε τ × List Event) : Outcome ε τ × List Event :=
  if attempt = maxRetries - 1 then (.err thrown, [])
  else (next.1, Event.waited (2 ^ attempt * 1000) :: next.2)

/-- The attempt loop of `CanvasClient.request` (canvas.ts:50-98), with
`fuel = maxRetries - attempt` remaining loop iterations.  `fetchAt n` is
what `fetch` produces on attempt `n`.  Returns the outcome and the trace of
requests and waits, in order. -/
def requestGo {ε τ : Type} (method path : String) (maxRetries : Nat)
    (fetchAt : Nat → FetchResult ε τ) : Nat → Nat → Outcome ε τ × List Event
  | _, 0 => (.err (.error (retriesExhaustedMessage method path maxRetries)), [])
  | attempt, fuel + 1 =>
    let next := requestGo method path maxRetries fetchAt (attempt + 1) fuel
    let step : Outcome ε τ × List Event :=
      match fetchAt attempt with
      | .exc e => catchClause attempt maxRetries (.exc e) next
      | .resp r =>
        if r.status = 429 then
          let retryAfter := r.retryAfter.getD 1
          let backoffTime := (retryAfter + attempt) * 1000
          (next.1, Event.waited backoffTime :: next.2)
        else if !responseOk r.status then
          let errorText := r.bodyRead.getD ""
          let msg := canvasErrorMessage method path r.status r.statusText errorText
          if 400 ≤ r.status ∧ r.status < 500 ∧ r.status ≠ 429 then
            catchClause attempt maxRetries (.error msg) next
          else if attempt = maxRetries - 1 then
            catchClause attempt maxRetries (.error msg) next
          else
            (next.1, Event.waited (2 ^ attempt * 1000) :: next.2)
        else
          match r.json with
          | .ok v => (.ok v, [])
          | .error e => catchClause attempt maxRetries (.exc e) next
    (step.1, Event.requestIssued :: step.2)

/-- `CanvasRequestOptions` (canvas.ts:5-11); `maxRetries` defaults to 5
(canvas.ts:29).  The request body and content type only shape the outgoing
payload, not the retry loop, so they are not carried here. -/
structure CanvasRequestOptions where
  method : String
  path : String
  maxRetries : Nat := 5

/-- The constructor's normalization `baseUrl.replace(/\/+$/, '')`
(canvas.ts:16): remove the maximal trailing run of `'/'`. -/
def stripTrailingSlashes (s : String) : String :=
  String.mk ((s.data.reverse.dropWhile (fun c => c == '/')).reverse)

/-- The two private fields of `CanvasClient` (canvas.ts:14). -/
structure CanvasClient where
  baseUrl : String
  token : String
  deriving DecidableEq, Repr

/-- `new CanvasClient(baseUrl, token)` (canvas.ts:14-17). -/
def mkCanvasClient (baseUrl token : String) : CanvasClient :=
  { baseUrl := stripTrailingSlashes baseUrl, token := token }

/-- `CanvasClient.headers` (canvas.ts:19-26), as an association list in
insertion order (a later `extra` entry overrides on lookup). -/
def CanvasClient.headers (c : CanvasClient) (extra : List (String × String) := []) :
    List (String × String) :=
  [("Authorization", "Bearer " ++ c.token),
   ("Accept", "application/json"),
   ("User-Agent", "MCP-Canvas/0.1.0")] ++ extra

/-- `CanvasClient.request` (canvas.ts:28-99): run the attempt loop from
attempt 0 with `maxRetries` iterations available. -/
def CanvasClient.request {ε τ : Type} (_c : CanvasClient) (options : CanvasRequestOptions)
    (fetchAt : Nat → FetchResult ε τ) : Outcome ε τ × List Event :=
  requestGo options.method options.path options.maxRetries fetchAt 0 options.maxRetries

/-- `CanvasClient.get` (canvas.ts:102-104). -/
def CanvasClient.get {ε τ : Type} (c : CanvasClient) (path : String)
    (fetchAt : Nat → FetchResult ε τ) : Outcome ε τ × List Event :=
  CanvasClient.request c { method := "GET", path := path } fetchAt

/-- `CanvasClient.post` (canvas.ts:106-108); the body shapes only the
outgoing payload, not the retry loop. -/
def CanvasClient.post {ε τ : Type} (c : CanvasClient) (path : String)
    (fetchAt : Nat → FetchResult ε τ) : Outcome ε τ × List Event :=
  CanvasClient.request c { method := "POST", path := path } fetchAt

/-- The message extracted from a caught value by
`error instanceof Error ? error.message : 'Unknown error'`
(canvas.ts:126, create_assignment.ts:53). -/
def jsErrorMessage : Thrown JsExc → String
  | .error msg => msg
  | .exc (.jsError msg) => msg
  | .exc .nonError => "Unknown error"

/-- The result shape of `CanvasClient.testConnection` (canvas.ts:119). -/
structure TestConnectionResult (τ : Type) where
  success : Bool
  user : Option τ
  error : Option String
  deriving DecidableEq, Repr

/-- `CanvasClient.testConnection` (canvas.ts:119-129): a GET of
`/api/v1/users/self`; on success report the user, on any caught value
report its message. -/
def CanvasClient.testConnection {τ : Type} (c : CanvasClient)
    (fetchAt : Nat → FetchResult JsExc τ) : TestConnectionResult τ :=
  match (CanvasClient.get c "/api/v1/users/self" fetchAt).1 with
  | .ok u => { success := true, user := some u, error := none }
  | .err t => { success := false, user := none, error := some (jsErrorMessage t) }

/-- The expected effect trace of a run in which every remaining attempt
receives a retryable (≥ 500) response: each non-final attempt is followed by
a `2 ^ attempt` second wait, the final attempt by none. -/
def serverErrorTrace : Nat → Nat → List Event
  | _, 0 => []
  | _, 1 => [Event.requestIssued]
  | attempt, fuel + 2 =>
    Event.requestIssued :: Event.waited (2 ^ attempt * 1000) ::
      serverErrorTrace (attempt + 1) (fuel + 1)

theorem responseOk_false_of_ge500 (s : Nat) (h : 500 ≤ s) : responseOk s = false := by
  simp only [responseOk, Bool.and_eq_false_iff, decide_eq_false_iff_not, not_le]
  omega

/-- One step of the loop on a 429 response: wait
`(retryAfter.getD 1 + attempt) * 1000` milliseconds and continue with the
next attempt; nothing is raised at this attempt. -/
theorem requestGo_step_429 {ε τ : Type} (method path : String) (maxRetries : Nat)
    (fetchAt : Nat → FetchResult ε τ) (attempt fuel : Nat) (r : HttpResponse ε τ)
    (hfetch : fetchAt attempt = .resp r) (h429 : r.status = 429) :
    requestGo method path maxRetries fetchAt attempt (fuel + 1) =
      ((requestGo method path maxRetries fetchAt (attempt + 1) fuel).1,
       Event.requestIssued :: Event.waited ((r.retryAfter.getD 1 + attempt) * 1000) ::
         (requestGo method path maxRetries fetchAt (attempt + 1) fuel).2) := by
  simp [requestGo, hfetch, h429]

/-- One step of the loop on a retryable (≥ 500) response that is not the
last permitted attempt: wait `2 ^ attempt` seconds and continue. -/
theorem requestGo_step_server_retry {ε τ : Type} (method path : String) (maxRetries : Nat)
    (fetchAt : Nat → FetchResult ε τ) (attempt fuel : Nat) (r : HttpResponse ε τ)
    (hfetch : fetchAt attempt = .resp r) (hstatus : 500 ≤ r.status)
    (hnotlast : ¬ attempt = maxRetries - 1) :
    requestGo method path maxRetries fetchAt attempt (fuel + 1) =
      ((requestGo method path maxRetries fetchAt (attempt + 1) fuel).1,
       Event.requestIssued :: Event.waited (2 ^ attempt * 1000) ::
         (requestGo method path maxRetries fetchAt (attempt + 1) fuel).2) := by
  simp only [requestGo, hfetch, responseOk_false_of_ge500 _ hstatus,
    if_neg (by omega : ¬ r.status = 429),
    if_neg (by omega : ¬ (400 ≤ r.status ∧ r.status < 500 ∧ r.status ≠ 429)),
    if_neg hnotlast, Bool.not_false, if_true]

/-- One step of the loop on a retryable (≥ 500) response on the last
permitted attempt: the constructed error is thrown, caught by the `catch`
block, and rethrown. -/
theorem requestGo_step_server_last {ε τ : Type} (method path : String) (maxRetries : Nat)
    (fetchAt : Nat → FetchResult ε τ) (attempt fuel : Nat) (r : HttpResponse ε τ)
    (hfetch : fetchAt attempt = .resp r) (hstatus : 500 ≤ r.status)
    (hlast : attempt = maxRetries - 1) :
    requestGo method path maxRetries fetchAt attempt (fuel + 1) =
      (.err (.error (canvasErrorMessage method path r.status r.statusText (r.bodyRead.getD ""))),
       [Event.requestIssued]) := by
  simp only [requestGo, hfetch, responseOk_false_of_ge500 _ hstatus, catchClause,
    if_neg (by omega : ¬ r.status = 429),
    if_neg (by omega : ¬ (400 ≤ r.status ∧ r.status < 500 ∧ r.status ≠ 429)),
    if_pos hlast, Bool.not_false, if_true]

/-- One step of the loop when `fetch` itself throws, on the last permitted
attempt: the `catch` block rethrows the exception unchanged. -/
theorem requestGo_step_exc_last {ε τ : Type} (method path : String) (maxRetries : Nat)
    (fetchAt : Nat → FetchResult ε τ) (attempt fuel : Nat) (e : ε)
    (hfetch : fetchAt attempt = .exc e) (hlast : attempt = maxRetries - 1) :
    requestGo method path maxRetries fetchAt attempt (fuel + 1) =
      (.err (.exc e), [Event.requestIssued]) := by
  simp [requestGo, hfetch, catchClause, if_pos hlast]

/-- One step of the loop when `fetch` itself throws, not on the last
permitted attempt: the `catch` block waits `2 ^ attempt` seconds and the
loop continues. -/
theorem requestGo_step_exc_retry {ε τ : Type} (method path : String) (maxRetries : Nat)
    (fetchAt : Nat → FetchResult ε τ) (attempt fuel : Nat) (e : ε)
    (hfetch : fetchAt attempt = .exc e) (hnotlast : ¬ attempt = maxRetries - 1) :
    requestGo method path maxRetries fetchAt attempt (fuel + 1) =
      ((requestGo method path maxRetries fetchAt (attempt + 1) fuel).1,
       Event.requestIssued :: Event.waited (2 ^ attempt * 1000) ::
         (requestGo method path maxRetries fetchAt (attempt + 1) fuel).2) := by
  simp [requestGo, hfetch, catchClause, if_neg hnotlast]

theorem status_ne_429_of_responseOk (s : Nat) (h : responseOk s = true) : ¬ s = 429 := by
  simp only [responseOk, Bool.and_eq_true, decide_eq_true_eq] at h
  omega

/-- One step of the loop on a 2xx response whose body fails to decode as
JSON, on the last permitted attempt: the decode exception is rethrown by
the `catch` block. -/
theorem requestGo_step_decode_last {ε τ : Type} (method path : String) (maxRetries : Nat)
    (fetchAt : Nat → FetchResult ε τ) (attempt fuel : Nat) (r : HttpResponse ε τ) (e : ε)
    (hfetch : fetchAt attempt = .resp r) (hok : responseOk r.status = true)
    (hjson : r.json = .error e) (hlast : attempt = maxRetries - 1) :
    requestGo method path maxRetries fetchAt attempt (fuel + 1) =
      (.err (.exc e), [Event.requestIssued]) := by
  simp [requestGo, hfetch, hok, hjson, catchClause, if_pos hlast,
    if_neg (status_ne_429_of_responseOk _ hok)]

/-- One step of the loop on a 2xx response whose body fails to decode as
JSON, not on the last permitted attempt: the decode exception is caught,
the loop waits `2 ^ attempt` seconds and re-issues the request. -/
theorem requestGo_step_decode_retry {ε τ : Type} (method path : String) (maxRetries : Nat)
    (fetchAt : Nat → FetchResult ε τ) (attempt fuel : Nat) (r : HttpResponse ε τ) (e : ε)
    (hfetch : fetchAt attempt = .resp r) (hok : responseOk r.status = true)
    (hjson : r.json = .error e) (hnotlast : ¬ attempt = maxRetries - 1) :
    requestGo method path maxRetries fetchAt attempt (fuel + 1) =
      ((requestGo method path maxRetries fetchAt (attempt + 1) fuel).1,
       Event.requestIssued :: Event.waited (2 ^ attempt * 1000) ::
         (requestGo method path maxRetries fetchAt (attempt + 1) fuel).2) := by
  simp [requestGo, hfetch, hok, hjson, catchClause, if_neg hnotlast,
    if_neg (status_ne_429_of_responseOk _ hok)]

/-- Exhaustion run for server errors: starting at `attempt` with
`fuel = maxRetries - attempt ≥ 1` iterations left, if every remaining
attempt yields a response with status ≥ 500, the loop raises the error
built from the last attempt's response and produces the expected trace. -/
theorem requestGo_serverRun {ε τ : Type} (method path : String) (maxRetries : Nat)
    (fetchAt : Nat → FetchResult ε τ) (R : Nat → HttpResponse ε τ) :
    ∀ fuel attempt, attempt + (fuel + 1) = maxRetries →
      (∀ i, attempt ≤ i → i < maxRetries → fetchAt i = .resp (R i) ∧ 500 ≤ (R i).status) →
      requestGo method path maxRetries fetchAt attempt (fuel + 1) =
        (.err (.error (canvasErrorMessage method path (R (maxRetries - 1)).status
            (R (maxRetries - 1)).statusText ((R (maxRetries - 1)).bodyRead.getD ""))),
         serverErrorTrace attempt (fuel + 1)) := by
  intro fuel
  induction fuel with
  | zero =>
    intro attempt hlen hresp
    obtain ⟨hfetch, hstatus⟩ := hresp attempt le_rfl (by omega)
    have hlast : attempt = maxRetries - 1 := by omega
    rw [requestGo_step_server_last method path maxRetries fetchAt attempt 0 _ hfetch hstatus hlast,
      hlast]
    rfl
  | succ fuel ih =>
    intro attempt hlen hresp
    obtain ⟨hfetch, hstatus⟩ := hresp attempt le_rfl (by omega)
    have hnotlast : ¬ attempt = maxRetries - 1 := by omega
    rw [requestGo_step_server_retry method path maxRetries fetchAt attempt (fuel + 1) _
      hfetch hstatus hnotlast]
    rw [ih (attempt + 1) (by omega) (fun i h1 h2 => hresp i (by omega) h2)]
    rfl

/-- Exhaustion run for rate limiting: if every remaining attempt yields a
429 response, the loop never raises from an attempt, issues one request per
remaining iteration, and falls through to the generic
"failed after N retries" error. -/
theorem requestGo_all429 {ε τ : Type} (method path : String) (maxRetries : Nat)
    (fetchAt : Nat → FetchResult ε τ) (R : Nat → HttpResponse ε τ) :
    ∀ fuel attempt,
      (∀ i, attempt ≤ i → i < attempt + fuel → fetchAt i = .resp (R i) ∧ (R i).status = 429) →
      (requestGo method path maxRetries fetchAt attempt fuel).1 =
          .err (.error (retriesExhaustedMessage method path maxRetries)) ∧
        (requestGo method path maxRetries fetchAt attempt fuel).2.count Event.requestIssued =
          fuel := by
  intro fuel
  induction fuel with
  | zero => intro attempt _; simp [requestGo]
  | succ fuel ih =>
    intro attempt hresp
    obtain ⟨hfetch, hstatus⟩ := hresp attempt le_rfl (by omega)
    have htail := ih (attempt + 1) (fun i h1 h2 => hresp i (by omega) (by omega))
    rw [requestGo_step_429 method path maxRetries fetchAt attempt fuel _ hfetch hstatus]
    refine ⟨htail.1, ?_⟩
    simp [List.count_cons, htail.2]

theorem head_dropWhileSlash_ne (l : List Char) :
    ∀ c, ((l.dropWhile fun x => x == '/').head? = some c) → ¬ c = '/' := by
  induction l with
  | nil => intro c h; simp [List.dropWhile] at h
  | cons a t ih =>
    intro c h
    by_cases ha : a = '/'
    · rw [List.dropWhile_cons] at h
      simp only [ha, beq_self_eq_true, if_true] at h
      exact ih c h
    · have hb : (a == '/') = false := by simpa using ha
      rw [List.dropWhile_cons] at h
      simp only [hb, Bool.false_eq_true, if_false, List.head?_cons, Option.some.injEq] at h
      exact h ▸ ha

/-- The stored base URL is the input minus a (possibly empty) run of
trailing slashes, and it does not itself end in a slash. -/
theorem stripTrailingSlashes_spec (s : String) :
    (∃ n, s.data = (stripTrailingSlashes s).data ++ List.replicate n '/') ∧
      (stripTrailingSlashes s).data.getLast? ≠ some '/' := by
  have h1 : s.data.reverse.takeWhile (fun c => c == '/') ++
      s.data.reverse.dropWhile (fun c => c == '/') = s.data.reverse :=
    List.takeWhile_append_dropWhile (fun c => c == '/') s.data.reverse
  have hall : ∀ b ∈ s.data.reverse.takeWhile (fun c => c == '/'), b = '/' := by
    intro b hb
    simpa using List.mem_takeWhile_imp hb
  have hrep : s.data.reverse.takeWhile (fun c => c == '/') =
      List.replicate (s.data.reverse.takeWhile (fun c => c == '/')).length '/' :=
    List.eq_replicate_length.2 hall
  have hdata : (stripTrailingSlashes s).data =
      (s.data.reverse.dropWhile (fun c => c == '/')).reverse := rfl
  constructor
  · refine ⟨(s.data.reverse.takeWhile (fun c => c == '/')).length, ?_⟩
    rw [hdata]
    conv_lhs => rw [← List.reverse_reverse s.data, ← h1]
    rw [List.reverse_append]
    congr 1
    conv_lhs => rw [hrep]
    rw [List.reverse_replicate]
  · intro hlast
    rw [hdata, List.getLast?_reverse] at hlast
    exact head_dropWhileSlash_ne _ '/' hlast rfl

/-- A JavaScript value as passed to a tool handler; `undefined` is modelled
by a dedicated constructor.  Numbers are modelled as rationals. -/
inductive JsonVal where
  | null
  | undefined
  | bool (b : Bool)
  | num (q : Rat)
  | str (s : String)
  | arr (xs : List JsonVal)
  | obj (fields : List (String × JsonVal))

/-- Property access `v.key`: the field's value on an object that has it,
`undefined` otherwise. -/
def jsGet (v : JsonVal) (key : String) : JsonVal :=
  match v with
  | .obj fields => ((fields.find? (fun p => p.1 == key)).map (fun p => p.2)).getD .undefined
  | _ => .undefined

/-- The value zod sees for a field of the input object: `none` when the key
is missing or its value is `undefined` (zod treats these alike). -/
def fieldOpt (fields : List (String × JsonVal)) (key : String) : Option JsonVal :=
  match (fields.find? (fun p => p.1 == key)).map (fun p => p.2) with
  | some JsonVal.undefined => none
  | v => v

/-- JS number-to-string for the integral case; non-integral rationals are
rendered in rational normal form, an approximation of JS float formatting
that no verified claim depends on. -/
def ratDisplay (q : Rat) : String :=
  if q.den = 1 then toString q.num else toString q

mutual

/-- JS string interpolation `String(v)` for the values occurring here. -/
def jsDisplay : JsonVal → String
  | .null => "null"
  | .undefined => "undefined"
  | .bool true => "true"
  | .bool false => "false"
  | .num q => ratDisplay q
  | .str s => s
  | .arr xs => String.intercalate "," (jsDisplayList xs)
  | .obj _ => "[object Object]"

def jsDisplayList : List JsonVal → List String
  | [] => []
  | v :: rest => jsDisplay v :: jsDisplayList rest

end

/-- JS truthiness for the values occurring here (`NaN` is not modelled). -/
def jsTruthy : JsonVal → Bool
  | .null => false
  | .undefined => false
  | .bool b => b
  | .num q => !(q == 0)
  | .str s => !(s == "")
  | .arr _ => true
  | .obj _ => true

/-- `v?.join(sep)`: `undefined` on a nullish receiver, the joined string on
an array.  A non-array, non-nullish receiver would throw in JS; no caller
here produces one and it is modelled as `undefined`. -/
def jsJoin (v : JsonVal) (sep : String) : JsonVal :=
  match v with
  | .arr xs => .str (String.intercalate sep (jsDisplayList xs))
  | _ => .undefined

/-- The regex `^\d+$` of zod `courseId` (schemas.ts). -/
def isDigitString (s : String) : Bool :=
  s ≠ "" && s.data.all (fun c => c.isDigit)

/-- zod `courseId` (schemas.ts): a positive integer number, or a string of
digits, transformed with `Number`.  The error strings throughout this
parser abstract zod's issue-report text; only success versus failure and
the parsed value are relied on. -/
def parseCourseId : Option JsonVal → Except String Nat
  | some (.num q) =>
    if q.den = 1 ∧ 0 < q.num then .ok q.num.toNat else .error "Invalid input: course_id"
  | some (.str s) =>
    if isDigitString s then .ok (s.toNat?.getD 0) else .error "Invalid input: course_id"
  | _ => .error "Invalid input: course_id"

/-- zod `name: z.string().min(1).max(255)`. -/
def parseName : Option JsonVal → Except String String
  | some (.str s) =>
    if 1 ≤ s.length ∧ s.length ≤ 255 then .ok s else .error "Invalid input: name"
  | _ => .error "Invalid input: name"

/-- zod `points_possible: z.number().min(0).default(100)`. -/
def parsePointsPossible : Option JsonVal → Except String Rat
  | none => .ok 100
  | some (.num q) => if 0 ≤ q then .ok q else .error "Invalid input: points_possible"
  | some _ => .error "Invalid input: points_possible"

/-- zod `due_at: z.string().datetime().optional()`; the datetime format
check is zod library behaviour and is taken as a parameter. -/
def parseDueAt (isDatetime : String → Bool) : Option JsonVal → Except String (Option String)
  | none => .ok none
  | some (.str s) => if isDatetime s then .ok (some s) else .error "Invalid input: due_at"
  | some _ => .error "Invalid input: due_at"

/-- The enum of `submission_types` (schemas.ts). -/
def submissionTypeValues : List String :=
  ["online_upload", "online_text_entry", "external_tool", "none",
   "on_paper", "discussion_topic", "online_quiz", "media_recording"]

def parseEnumStrings (allowed : List String) : List JsonVal → Option (List String)
  | [] => some []
  | .str s :: rest =>
    if allowed.contains s then (parseEnumStrings allowed rest).map (fun l => s :: l) else none
  | _ :: _ => none

/-- zod `submission_types: z.array(z.enum([...])).min(1)`. -/
def parseSubmissionTypes : Option JsonVal → Except String (List String)
  | some (.arr xs) =>
    match parseEnumStrings submissionTypeValues xs with
    | some l => if 1 ≤ l.length then .ok l else .error "Invalid input: submission_types"
    | none => .error "Invalid input: submission_types"
  | _ => .error "Invalid input: submission_types"

/-- zod `description_html: z.string().optional()`. -/
def parseDescriptionHtml : Option JsonVal → Except String (Option String)
  | none => .ok none
  | some (.str s) => .ok (some s)
  | some _ => .error "Invalid input: description_html"

/-- zod `published: z.boolean().default(true)`. -/
def parsePublished : Option JsonVal → Except String Bool
  | none => .ok true
  | some (.bool b) => .ok b
  | some _ => .error "Invalid input: published"

/-- The enum of `grading_type` (schemas.ts). -/
def gradingTypeValues : List String :=
  ["pass_fail", "percent", "letter_grade", "gpa_scale", "points"]

/-- zod `grading_type: z.enum([...]).default('points')`. -/
def parseGradingType : Option JsonVal → Except String String
  | none => .ok "points"
  | some (.str s) =>
    if gradingTypeValues.contains s then .ok s else .error "Invalid input: grading_type"
  | some _ => .error "Invalid input: grading_type"

/-- zod `assignment_group_id: z.number().int().positive().optional()`. -/
def parseAssignmentGroupId : Option JsonVal → Except String (Option Nat)
  | none => .ok none
  | some (.num q) =>
    if q.den = 1 ∧ 0 < q.num then .ok (some q.num.toNat)
    else .error "Invalid input: assignment_group_id"
  | some _ => .error "Invalid input: assignment_group_id"

/-- The output of `CreateAssignmentInput.parse` (schemas.ts). -/
structure CreateAssignmentValidated where
  course_id : Nat
  name : String
  points_possible : Rat
  due_at : Option String
  submission_types : List String
  description_html : Option String
  published : Bool
  grading_type : String
  assignment_group_id : Option Nat

/-- `CreateAssignmentInput.parse(input)` (schemas.ts): validate every field
of the input object, or throw a `ZodError`.  zod aggregates all issues into
one error; this model reports the first failing field, which fails on
exactly the same inputs. -/
def parseCreateAssignment (isDatetime : String → Bool) :
    JsonVal → Except String CreateAssignmentValidated
  | .obj fields => do
    let course_id ← parseCourseId (fieldOpt fields "course_id")
    let name ← parseName (fieldOpt fields "name")
    let points_possible ← parsePointsPossible (fieldOpt fields "points_possible")
    let due_at ← parseDueAt isDatetime (fieldOpt fields "due_at")
    let submission_types ← parseSubmissionTypes (fieldOpt fields "submission_types")
    let description_html ← parseDescriptionHtml (fieldOpt fields "description_html")
    let published ← parsePublished (fieldOpt fields "published")
    let grading_type ← parseGradingType (fieldOpt fields "grading_type")
    let assignment_group_id ← parseAssignmentGroupId (fieldOpt fields "assignment_group_id")
    pure { course_id := course_id, name := name, points_possible := points_possible,
           due_at := due_at, submission_types := submission_types,
           description_html := description_html, published := published,
           grading_type := grading_type, assignment_group_id := assignment_group_id }
  | _ => .error "Invalid input: expected object"

/-- The `assignmentData` payload built at create_assignment.ts:17-26. -/
def createAssignmentBody (v : CreateAssignmentValidated) : JsonVal :=
  .obj [("assignment", .obj
    [("name", .str v.name),
     ("points_possible", .num v.points_possible),
     ("due_at", match v.due_at with | some s => .str s | none => .undefined),
     ("submission_types", .arr (v.submission_types.map (fun s => .str s))),
     ("description", .str (v.description_html.getD "")),
     ("published", .bool v.published)])]

/-- The success text of create_assignment.ts:38-47. -/
def createAssignmentSuccessText (v : CreateAssignmentValidated) (result : JsonVal) : String :=
  "✅ Successfully created assignment \"" ++ v.name ++ "\"\n\n" ++
  "**Assignment Details:**\n" ++
  "- ID: " ++ jsDisplay (jsGet result "id") ++ "\n" ++
  "- Name: " ++ jsDisplay (jsGet result "name") ++ "\n" ++
  "- Points: " ++ jsDisplay (jsGet result "points_possible") ++ "\n" ++
  "- Due: " ++ (if jsTruthy (jsGet result "due_at") then jsDisplay (jsGet result "due_at")
                else "Not set") ++ "\n" ++
  "- Submission Types: " ++ jsDisplay (jsJoin (jsGet result "submission_types") ", ") ++ "\n" ++
  "- Published: " ++ jsDisplay (jsGet result "published") ++ "\n" ++
  "- Canvas URL: " ++ jsDisplay (jsGet result "html_url") ++ "\n\n" ++
  "The assignment is now available in your course."

/-- The failure text of create_assignment.ts:59-64, built from the raw
(unvalidated) input object. -/
def createAssignmentFailureText (input : JsonVal) (errorMessage : String) : String :=
  "❌ Failed to create assignment \"" ++ jsDisplay (jsGet input "name") ++ "\"\n\n" ++
  "**Error:** " ++ errorMessage ++ "\n\n" ++
  "**Troubleshooting:**\n" ++
  "- Verify course ID " ++ jsDisplay (jsGet input "course_id") ++
    " exists and you have teacher/admin access\n" ++
  "- Check that your Canvas API token has sufficient permissions\n" ++
  "- Ensure all required fields are properly formatted"

/-- A tool response: a list of `{type: 'text', text}` blocks (the `type` is
always `'text'` and is not carried). -/
structure ToolResponse where
  content : List String

/-- One run of a tool handler: the `client.post` calls it made (path and
body, in order) and the response it returned. -/
structure HandlerRun where
  calls : List (String × JsonVal)
  response : ToolResponse

/-- `createAssignmentTool(client).handler` (create_assignment.ts:11-68).
`post path body` is the outcome of `client.post(path, body)`.  Validation
runs inside the `try`, so a `ZodError` is caught and turned into the
failure response without any network call. -/
def createAssignmentHandler (isDatetime : String → Bool) (input : JsonVal)
    (post : String → JsonVal → Except (Thrown JsExc) JsonVal) : HandlerRun :=
  match parseCreateAssignment isDatetime input with
  | .error msg =>
    { calls := [], response := { content := [createAssignmentFailureText input msg] } }
  | .ok v =>
    let path := "/api/v1/courses/" ++ toString v.course_id ++ "/assignments"
    let body := createAssignmentBody v
    { calls := [(path, body)],
      response :=
        match post path body with
        | .ok result => { content := [createAssignmentSuccessText v result] }
        | .error t => { content := [createAssignmentFailureText input (jsErrorMessage t)] } }

/-! Concrete response fixtures used by the witness theorems. -/

def sampleOk (v : Nat) : FetchResult JsExc Nat :=
  .resp { status := 200, statusText := "OK", bodyRead := some "", retryAfter := none,
          json := .ok v }

def sample404 : FetchResult JsExc Nat :=
  .resp { status := 404, statusText := "Not Found", bodyRead := some "Course not found",
          retryAfter := none, json := .error .nonError }

def sample503 : HttpResponse JsExc Nat :=
  { status := 503, statusText := "Service Unavailable", bodyRead := some "oops",
    retryAfter := none, json := .error .nonError }

def sample429 (ra : Option Nat) : HttpResponse JsExc Nat :=
  { status := 429, statusText := "Too Many Requests", bodyRead := some "",
    retryAfter := ra, json := .error .nonError }

def sampleBadJson : HttpResponse JsExc Nat :=
  { status := 200, statusText := "OK", bodyRead := some "<html>", retryAfter := none,
    json := .error (JsExc.jsError "Unexpected token <") }

def sampleTransport : FetchResult JsExc Nat :=
  .exc (JsExc.jsError "connection refused")

/-- Claim C1, evaluated against the code: a 404 with attempts remaining is
NOT terminal.  The `throw` for non-429 4xx statuses sits inside the `try`,
so the loop's own `catch` intercepts it, waits `2^0` seconds, issues a
second HTTP request, and returns its success result — contradicting the
claimed raise-immediately behaviour (and the comment at canvas.ts:70). -/
theorem request_404_retried_not_terminal :
    CanvasClient.request (mkCanvasClient "https://canvas.example" "tok")
        { method := "POST", path := "/api/v1/courses/1/assignments", maxRetries := 2 }
        (fun i => if i = 0 then sample404 else sampleOk 7) =
      (.ok 7, [Event.requestIssued, Event.waited 1000, Event.requestIssued]) := by
  rfl

/-- Claim C2: an attempt whose response status is ≥ 500 and is not the last
permitted attempt is followed by a `2 ^ attempt` second wait and a retry;
and when every attempt of a run returns status ≥ 500, the loop issues all
`maxRetries` requests with the exponential waits between them and raises
the error built from the LAST attempt's status, status text and body. -/
theorem request_5xx_retry_and_exhaustion :
    (∀ {ε τ : Type} (method path : String) (maxRetries : Nat)
        (fetchAt : Nat → FetchResult ε τ) (attempt fuel : Nat) (r : HttpResponse ε τ),
        fetchAt attempt = .resp r → 500 ≤ r.status → ¬ attempt = maxRetries - 1 →
        requestGo method path maxRetries fetchAt attempt (fuel + 1) =
          ((requestGo method path maxRetries fetchAt (attempt + 1) fuel).1,
           Event.requestIssued :: Event.waited (2 ^ attempt * 1000) ::
             (requestGo method path maxRetries fetchAt (attempt + 1) fuel).2)) ∧
    (∀ {ε τ : Type} (c : CanvasClient) (method path : String) (maxRetries : Nat)
        (fetchAt : Nat → FetchResult ε τ) (R : Nat → HttpResponse ε τ),
        1 ≤ maxRetries →
        (∀ i, i < maxRetries → fetchAt i = .resp (R i) ∧ 500 ≤ (R i).status) →
        CanvasClient.request c { method := method, path := path, maxRetries := maxRetries }
            fetchAt =
          (.err (.error (canvasErrorMessage method path (R (maxRetries - 1)).status
              (R (maxRetries - 1)).statusText ((R (maxRetries - 1)).bodyRead.getD ""))),
           serverErrorTrace 0 maxRetries)) := by
  constructor
  · intro ε τ method path maxRetries fetchAt attempt fuel r hfetch hstatus hnotlast
    exact requestGo_step_server_retry method path maxRetries fetchAt attempt fuel r
      hfetch hstatus hnotlast
  · intro ε τ c method path maxRetries fetchAt R h1 h2
    obtain ⟨fuel, rfl⟩ : ∃ f, maxRetries = f + 1 := ⟨maxRetries - 1, by omega⟩
    exact requestGo_serverRun method path (fuel + 1) fetchAt R fuel 0 (by omega)
      (fun i _ hi => h2 i hi)

theorem request_5xx_retry_and_exhaustion_witness :
    CanvasClient.request (mkCanvasClient "https://canvas.example" "tok")
        { method := "GET", path := "/x", maxRetries := 5 }
        (fun _ => FetchResult.resp sample503) =
      (.err (.error "Canvas GET /x failed: 503 Service Unavailable: oops"),
       [Event.requestIssued, Event.waited 1000, Event.requestIssued, Event.waited 2000,
        Event.requestIssued, Event.waited 4000, Event.requestIssued, Event.waited 8000,
        Event.requestIssued]) := by
  have h := request_5xx_retry_and_exhaustion.2 (mkCanvasClient "https://canvas.example" "tok")
    "GET" "/x" 5 (fun _ => FetchResult.resp sample503) (fun _ => sample503)
    (by omega) (fun i _ => ⟨rfl, (by decide : (500:Nat) ≤ 503)⟩)
  exact h

/-- Claim C3: an attempt whose response status is 429 waits exactly
`(retryAfterSeconds + attemptIndex) * 1000` milliseconds — where
`retryAfterSeconds` is the `Retry-After` header value, defaulting to 1 when
the header is absent — and then proceeds to the next attempt without
raising anything at this attempt. -/
theorem request_429_waits_and_continues {ε τ : Type} (method path : String)
    (maxRetries : Nat) (fetchAt : Nat → FetchResult ε τ) (attempt fuel : Nat)
    (r : HttpResponse ε τ) (hfetch : fetchAt attempt = .resp r) (h429 : r.status = 429) :
    requestGo method path maxRetries fetchAt attempt (fuel + 1) =
      ((requestGo method path maxRetries fetchAt (attempt + 1) fuel).1,
       Event.requestIssued :: Event.waited ((r.retryAfter.getD 1 + attempt) * 1000) ::
         (requestGo method path maxRetries fetchAt (attempt + 1) fuel).2) :=
  requestGo_step_429 method path maxRetries fetchAt attempt fuel r hfetch h429

theorem request_429_waits_and_continues_witness :
    requestGo "GET" "/x" 2
        (fun i => if i = 0 then FetchResult.resp (sample429 (some 2)) else sampleOk 1) 0 2 =
      (.ok 1, [Event.requestIssued, Event.waited 2000, Event.requestIssued]) := by
  have h := request_429_waits_and_continues "GET" "/x" 2
    (fun i => if i = 0 then FetchResult.resp (sample429 (some 2)) else sampleOk 1) 0 1
    (sample429 (some 2)) rfl rfl
  exact h

/-- Claim C4: when every attempt of a run receives a 429 response, no
attempt raises, the loop issues one request per permitted attempt and
exhausts, and the client raises the generic Error whose message is the
method, path and "failed after N retries" with N = maxRetries. -/
theorem request_all429_exhausts_to_generic_error {ε τ : Type} (c : CanvasClient)
    (method path : String) (maxRetries : Nat) (fetchAt : Nat → FetchResult ε τ)
    (R : Nat → HttpResponse ε τ)
    (h : ∀ i, i < maxRetries → fetchAt i = .resp (R i) ∧ (R i).status = 429) :
    (CanvasClient.request c { method := method, path := path, maxRetries := maxRetries }
        fetchAt).1 =
      .err (.error (retriesExhaustedMessage method path maxRetries)) ∧
    (CanvasClient.request c { method := method, path := path, maxRetries := maxRetries }
        fetchAt).2.count Event.requestIssued = maxRetries :=
  requestGo_all429 method path maxRetries fetchAt R maxRetries 0
    (fun i _ h2 => h i (by omega))

theorem request_all429_exhausts_to_generic_error_witness :
    (CanvasClient.request (mkCanvasClient "https://canvas.example" "tok")
        { method := "GET", path := "/x", maxRetries := 2 }
        (fun _ => FetchResult.resp (sample429 none))).1 =
      .err (.error "Canvas GET /x failed after 2 retries") ∧
    (CanvasClient.request (mkCanvasClient "https://canvas.example" "tok")
        { method := "GET", path := "/x", maxRetries := 2 }
        (fun _ => FetchResult.resp (sample429 none))).2.count Event.requestIssued = 2 := by
  have h := request_all429_exhausts_to_generic_error
    (mkCanvasClient "https://canvas.example" "tok") "GET" "/x" 2
    (fun _ => FetchResult.resp (sample429 none)) (fun _ => sample429 none)
    (fun i _ => ⟨rfl, rfl⟩)
  exact h

/-- Claim C5: an attempt on which `fetch` itself throws is retried after a
`2 ^ attempt` second wait when it is not the last permitted attempt, and on
the last permitted attempt the exception value is propagated to the caller
unchanged. -/
theorem request_transport_exc_retry_or_propagate {ε τ : Type} (method path : String)
    (maxRetries : Nat) (fetchAt : Nat → FetchResult ε τ) (attempt fuel : Nat) (e : ε)
    (hfetch : fetchAt attempt = .exc e) :
    (attempt = maxRetries - 1 →
      requestGo method path maxRetries fetchAt attempt (fuel + 1) =
        (.err (.exc e), [Event.requestIssued])) ∧
    (¬ attempt = maxRetries - 1 →
      requestGo method path maxRetries fetchAt attempt (fuel + 1) =
        ((requestGo method path maxRetries fetchAt (attempt + 1) fuel).1,
         Event.requestIssued :: Event.waited (2 ^ attempt * 1000) ::
           (requestGo method path maxRetries fetchAt (attempt + 1) fuel).2)) :=
  ⟨fun hlast => requestGo_step_exc_last method path maxRetries fetchAt attempt fuel e
      hfetch hlast,
   fun hnotlast => requestGo_step_exc_retry method path maxRetries fetchAt attempt fuel e
      hfetch hnotlast⟩

theorem request_transport_exc_retry_or_propagate_witness :
    requestGo "GET" "/x" 1 (fun _ => sampleTransport) 0 1 =
      (.err (.exc (JsExc.jsError "connection refused")), [Event.requestIssued]) ∧
    requestGo "GET" "/x" 2
        (fun i => if i = 0 then sampleTransport else sampleOk 7) 0 2 =
      (.ok 7, [Event.requestIssued, Event.waited 1000, Event.requestIssued]) := by
  constructor
  · exact (request_transport_exc_retry_or_propagate "GET" "/x" 1
      (fun _ => sampleTransport) 0 0 (JsExc.jsError "connection refused") rfl).1 rfl
  · have h := (request_transport_exc_retry_or_propagate "GET" "/x" 2
      (fun i => if i = 0 then sampleTransport else sampleOk 7) 0 1
      (JsExc.jsError "connection refused") rfl).2 (by omega)
    exact h

/-- Claim C6: a 2xx response whose body fails to decode as JSON is not
returned and is not terminal while attempts remain — the decode exception
is caught by the loop, which waits `2 ^ attempt` seconds and re-issues the
whole request; only on the last permitted attempt is the decode exception
propagated to the caller. -/
theorem request_decode_failure_retries {ε τ : Type} (method path : String)
    (maxRetries : Nat) (fetchAt : Nat → FetchResult ε τ) (attempt fuel : Nat)
    (r : HttpResponse ε τ) (e : ε) (hfetch : fetchAt attempt = .resp r)
    (hok : responseOk r.status = true) (hjson : r.json = .error e) :
    (attempt = maxRetries - 1 →
      requestGo method path maxRetries fetchAt attempt (fuel + 1) =
        (.err (.exc e), [Event.requestIssued])) ∧
    (¬ attempt = maxRetries - 1 →
      requestGo method path maxRetries fetchAt attempt (fuel + 1) =
        ((requestGo method path maxRetries fetchAt (attempt + 1) fuel).1,
         Event.requestIssued :: Event.waited (2 ^ attempt * 1000) ::
           (requestGo method path maxRetries fetchAt (attempt + 1) fuel).2)) :=
  ⟨fun hlast => requestGo_step_decode_last method path maxRetries fetchAt attempt fuel r e
      hfetch hok hjson hlast,
   fun hnotlast => requestGo_step_decode_retry method path maxRetries fetchAt attempt fuel r e
      hfetch hok hjson hnotlast⟩

theorem request_decode_failure_retries_witness :
    requestGo "GET" "/x" 1 (fun _ => FetchResult.resp sampleBadJson) 0 1 =
      (.err (.exc (JsExc.jsError "Unexpected token <")), [Event.requestIssued]) ∧
    requestGo "GET" "/x" 2
        (fun i => if i = 0 then FetchResult.resp sampleBadJson else sampleOk 7) 0 2 =
      (.ok 7, [Event.requestIssued, Event.waited 1000, Event.requestIssued]) := by
  constructor
  · exact (request_decode_failure_retries "GET" "/x" 1
      (fun _ => FetchResult.resp sampleBadJson) 0 0 sampleBadJson
      (JsExc.jsError "Unexpected token <") rfl rfl rfl).1 rfl
  · have h := (request_decode_failure_retries "GET" "/x" 2
      (fun i => if i = 0 then FetchResult.resp sampleBadJson else sampleOk 7) 0 1
      sampleBadJson (JsExc.jsError "Unexpected token <") rfl rfl rfl).2 (by omega)
    exact h

/-- Claim C7: `testConnection` never throws: it returns
`{success: true, user}` with the decoded current-user value when the
underlying GET succeeds, and `{success: false, error}` with the caught
value's message when it raises for any reason. -/
theorem testConnection_reports_never_throws {τ : Type} (c : CanvasClient)
    (fetchAt : Nat → FetchResult JsExc τ) :
    (∃ u, (CanvasClient.get c "/api/v1/users/self" fetchAt).1 = .ok u ∧
      c.testConnection fetchAt = { success := true, user := some u, error := none }) ∨
    (∃ t, (CanvasClient.get c "/api/v1/users/self" fetchAt).1 = .err t ∧
      c.testConnection fetchAt =
        { success := false, user := none, error := some (jsErrorMessage t) }) := by
  cases hout : (CanvasClient.get c "/api/v1/users/self" fetchAt).1 with
  | ok u => exact Or.inl ⟨u, rfl, by simp [CanvasClient.testConnection, hout]⟩
  | err t => exact Or.inr ⟨t, rfl, by simp [CanvasClient.testConnection, hout]⟩

/-- Claim C8: tool arguments that fail the declared input schema are
rejected by the handler before any network call: `client.post` is never
invoked and the validation failure is returned as a normal failure
response rather than as a raw exception. -/
theorem createAssignment_rejects_invalid_before_network
    (isDatetime : String → Bool) (input : JsonVal)
    (post : String → JsonVal → Except (Thrown JsExc) JsonVal) (msg : String)
    (hparse : parseCreateAssignment isDatetime input = .error msg) :
    (createAssignmentHandler isDatetime input post).calls = [] ∧
    (createAssignmentHandler isDatetime input post).response =
      { content := [createAssignmentFailureText input msg] } := by
  simp [createAssignmentHandler, hparse]

def badAssignmentInput : JsonVal :=
  .obj [("course_id", .str "abc"), ("name", .str "HW 1"),
        ("submission_types", .arr [.str "online_upload"])]

theorem createAssignment_rejects_invalid_before_network_witness :
    parseCreateAssignment (fun _ => true) badAssignmentInput =
      .error "Invalid input: course_id" ∧
    (createAssignmentHandler (fun _ => true) badAssignmentInput
      (fun _ _ => .ok JsonVal.null)).calls = [] ∧
    (createAssignmentHandler (fun _ => true) badAssignmentInput
      (fun _ _ => .ok JsonVal.null)).response =
      { content := [createAssignmentFailureText badAssignmentInput
          "Invalid input: course_id"] } := by
  have hparse : parseCreateAssignment (fun _ => true) badAssignmentInput =
      .error "Invalid input: course_id" := rfl
  have h := createAssignment_rejects_invalid_before_network (fun _ => true)
    badAssignmentInput (fun _ _ => .ok JsonVal.null) "Invalid input: course_id" hparse
  exact ⟨hparse, h.1, h.2⟩

/-- Claim C9: the constructor stores the base URL with every trailing `'/'`
removed — the stored value never ends in a slash and the input is exactly
the stored value followed by a run of slashes — and stores the credential
unchanged.  (No method of the class assigns to either field after
construction; the embedding is correspondingly state-free.) -/
theorem canvasClient_constructor_normalizes (baseUrl token : String) :
    (mkCanvasClient baseUrl token).token = token ∧
    (∃ n, baseUrl.data = (mkCanvasClient baseUrl token).baseUrl.data ++
      List.replicate n '/') ∧
    (mkCanvasClient baseUrl token).baseUrl.data.getLast? ≠ some '/' :=
  ⟨rfl, (stripTrailingSlashes_spec baseUrl).1, (stripTrailingSlashes_spec baseUrl).2⟩

/-- Two successive executions of the same GET request descriptor, each with
its own view of the server's responses. -/
def CanvasClient.getTwice {ε τ : Type} (c : CanvasClient) (path : String)
    (fetchAt1 fetchAt2 : Nat → FetchResult ε τ) :
    (Outcome ε τ × List Event) × (Outcome ε τ × List Event) :=
  (CanvasClient.get c path fetchAt1, CanvasClient.get c path fetchAt2)

/-- Claim C10: issuing the same GET descriptor twice in a row against a
server that answers identically yields two identical outcomes (same
decoded value or same classified failure, same effect trace): the client
keeps no state between calls. -/
theorem get_twice_deterministic {ε τ : Type} (c : CanvasClient) (path : String)
    (fetchAt1 fetchAt2 : Nat → FetchResult ε τ) (h : ∀ i, fetchAt1 i = fetchAt2 i) :
    (CanvasClient.getTwice c path fetchAt1 fetchAt2).1 =
      (CanvasClient.getTwice c path fetchAt1 fetchAt2).2 := by
  have heq : fetchAt1 = fetchAt2 := funext h
  rw [CanvasClient.getTwice, heq]

theorem get_twice_deterministic_witness :
    (CanvasClient.getTwice (mkCanvasClient "https://canvas.example" "tok") "/api/v1/courses"
        (fun _ => sampleOk 7) (fun _ => sampleOk 7)).1 =
      (CanvasClient.getTwice (mkCanvasClient "https://canvas.example" "tok") "/api/v1/courses"
        (fun _ => sampleOk 7) (fun _ => sampleOk 7)).2 :=
  get_twice_deterministic (mkCanvasClient "https://canvas.example" "tok") "/api/v1/courses"
    (fun _ => sampleOk 7) (fun _ => sampleOk 7) (fun _ => rfl)

end Canvas
